import Mathlib

/-!
Shallow embedding of the per-frame orchestration core of the Space Defender
repository (src/config.py, src/entities/*, src/services/*), for checking the
natural-language specification against the code.

Conventions of the embedding:
* Python floats are modelled as rationals (`ℚ`); every arithmetic operation the
  code performs on them is exact (+, -, *, comparison), so `ℚ` is faithful.
* `pygame.Rect` stores C integers; assigning a float to a rect coordinate
  truncates toward zero.  Rect fields are `ℤ` and the truncation is `pytrunc`.
* Randomness (`random.randint`, `random.uniform`) and the trigonometric
  bounding-box growth of `pygame.transform.rotate` are supplied as explicit
  oracle arguments, so every function is deterministic and executable.
* File I/O (`highscores.json`) is a `FileState`; the possibility of a write
  failing is an explicit `Bool` oracle.  A raised-and-uncaught Python
  exception is `Except.error`.
-/

/-! ### Configuration constants (src/config.py) -/

def SCREEN_WIDTH : ℤ := 800
def SCREEN_HEIGHT : ℤ := 600
def FPS : ℚ := 60
def PLAYER_SPEED : ℤ := 5
def PLAYER_WIDTH : ℤ := 30
def PLAYER_HEIGHT : ℤ := 40
def PLAYER_STARTING_LIVES : ℤ := 3
def PLAYER_INVULNERABILITY_TIME : ℚ := 2
def PROJECTILE_SPEED : ℚ := 8
def PROJECTILE_WIDTH : ℤ := 4
def PROJECTILE_HEIGHT : ℤ := 12
def PROJECTILE_COOLDOWN : ℚ := 3/10
def ENEMY_SPEED_MIN : ℚ := 1
def ENEMY_SPEED_MAX : ℚ := 3
def ENEMY_SIZE_MIN : ℤ := 20
def ENEMY_SIZE_MAX : ℤ := 40
def ENEMY_SPAWN_RATE : ℚ := 3/2
def ENEMY_POINTS : ℤ := 10
def DIFFICULTY_INCREASE_INTERVAL : ℤ := 100
def SPAWN_RATE_MULTIPLIER : ℚ := 9/10
def ENEMY_SPEED_MULTIPLIER : ℚ := 11/10

/-! ### pygame.Rect and the geometry utilities (src/services/collision_service.py) -/

/-- A `pygame.Rect`: integer top-left corner and size. -/
structure Rect where
  x : ℤ
  y : ℤ
  w : ℤ
  h : ℤ
  deriving Repr, DecidableEq

/-- Assigning a Python float to a `pygame.Rect` coordinate truncates toward
zero (C integer conversion). -/
def pytrunc (q : ℚ) : ℤ := if 0 ≤ q then ⌊q⌋ else ⌈q⌉

/-- Source `check_collision` / `Rect.colliderect`: strict axis-aligned overlap
(touching edges do not collide; zero-size rects never collide). -/
def check_collision (a b : Rect) : Bool :=
  (a.x < b.x + b.w) && (a.y < b.y + b.h) && (b.x < a.x + a.w) && (b.y < a.y + a.h)

/-- Source `check_out_of_bounds(rect, screen_width, screen_height, margin)`. -/
def check_out_of_bounds (r : Rect) (screen_width screen_height margin : ℤ) : Bool :=
  (r.x + r.w < -margin) || (r.x > screen_width + margin) ||
  (r.y + r.h < -margin) || (r.y > screen_height + margin)

/-- Source `keep_in_bounds(rect, screen_width, screen_height)`: the four sequential
clamps of the source (left, right, top, bottom, in that order). -/
def keep_in_bounds (r : Rect) (screen_width screen_height : ℤ) : Rect :=
  let r1 := if r.x < 0 then { r with x := 0 } else r
  let r2 := if r1.x + r1.w > screen_width then { r1 with x := screen_width - r1.w } else r1
  let r3 := if r2.y < 0 then { r2 with y := 0 } else r2
  let r4 := if r3.y + r3.h > screen_height then { r3 with y := screen_height - r3.h } else r3
  r4

/-! ### Score persistence (src/services/score_service.py) -/

/-- The `highscores.json` file as seen by the service: absent, unreadable or
syntactically invalid, or holding a stored `high_score` value. -/
inductive FileState where
  | missing : FileState
  | corrupt : FileState
  | stored : ℤ → FileState
  deriving Repr, DecidableEq

/-- The persistence medium together with a count of completed writes
(used to observe how often the high score is persisted). -/
structure Disk where
  file : FileState
  writes : ℕ
  deriving Repr, DecidableEq

/-- Python error conditions the embedding can surface. -/
inductive PyError where
  | typeError : PyError
  | ioError : PyError
  deriving Repr, DecidableEq

/-- Reading and parsing `highscores.json` (the body of the `try` in
`load_high_score`): raises on a missing or corrupt file. -/
def json_load : FileState → Except PyError ℤ
  | .missing => .error .ioError
  | .corrupt => .error .ioError
  | .stored v => .ok v

/-- Source `ScoreService.load_high_score`: 0 when the file does not exist, 0 when the
read raises (caught in the method), otherwise the stored value. -/
def load_high_score (fs : FileState) : ℤ :=
  if fs = FileState.missing then 0
  else
    match json_load fs with
    | .ok v => v
    | .error _ => 0

/-- The raw write in `save_high_score`'s `try` block; `ok` is the environment
oracle for whether the write succeeds. -/
def json_dump (v : ℤ) (ok : Bool) (d : Disk) : Except PyError Disk :=
  if ok then .ok { file := .stored v, writes := d.writes + 1 } else .error .ioError

/-- Source `ScoreService.save_high_score`: writes the in-memory high score; a failure
is caught inside the method (a warning is printed) and the disk is unchanged. -/
def save_high_score (v : ℤ) (ok : Bool) (d : Disk) : Disk :=
  match json_dump v ok d with
  | .ok d1 => d1
  | .error _ => d

/-- The in-memory state of `ScoreService`. -/
structure ScoreService where
  current_score : ℤ
  high_score : ℤ
  deriving Repr, DecidableEq

/-- Source `ScoreService.__init__`: current score 0, high score loaded from disk. -/
def ScoreService.init (d : Disk) : ScoreService :=
  { current_score := 0, high_score := load_high_score d.file }

/-- Source `ScoreService.add_points`. -/
def ScoreService.add_points (points : ℤ) (s : ScoreService) : ScoreService :=
  let cur := s.current_score + points
  { current_score := cur
    high_score := if cur > s.high_score then cur else s.high_score }

/-- Source `ScoreService.reset_score`. -/
def ScoreService.reset_score (s : ScoreService) : ScoreService :=
  { s with current_score := 0 }

/-- The in-memory operations a running game performs on the score service. -/
inductive ScoreOp where
  | add : ℤ → ScoreOp
  | reset : ScoreOp

/-- Apply one in-memory score operation. -/
def ScoreService.applyOp (s : ScoreService) : ScoreOp → ScoreService
  | .add p => s.add_points p
  | .reset => s.reset_score

/-- Run a sequence of score operations from a starting state. -/
def ScoreService.runOps (s : ScoreService) (ops : List ScoreOp) : ScoreService :=
  ops.foldl ScoreService.applyOp s

/-! ### Entities (src/entities/player.py, enemy.py, projectile.py) -/

/-- The `Player` sprite: rect, lives, shoot cooldown and the visual
invulnerability flash timer.  (The image/alpha handling is rendering-only and
does not influence any field below.) -/
structure PlayerS where
  rect : Rect
  lives : ℤ
  max_lives : ℤ
  shoot_cooldown : ℚ
  invulnerable_flash_timer : ℚ
  deriving Repr, DecidableEq

/-- Source `Player.__init__(x, y)`: a `PLAYER_WIDTH × PLAYER_HEIGHT` rect centered at
`(x, y)` (pygame center assignment uses integer halves of the size). -/
def PlayerS.init (x y : ℤ) : PlayerS :=
  { rect := { x := x - PLAYER_WIDTH / 2, y := y - PLAYER_HEIGHT / 2,
              w := PLAYER_WIDTH, h := PLAYER_HEIGHT }
    lives := PLAYER_STARTING_LIVES
    max_lives := PLAYER_STARTING_LIVES
    shoot_cooldown := 0
    invulnerable_flash_timer := 0 }

/-- The named boolean actions of `InputService.get_input_state` that the core
reads (`move_up`/`move_down` exist in the dict but are not read). -/
structure InputState where
  move_left : Bool
  move_right : Bool
  shoot : Bool
  deriving Repr, DecidableEq

/-- Source `Player.update(input_state, delta_time)`: movement from input, clamp to
screen, gated (not clamped) decrements of the shoot cooldown and of the
flash timer.  The alpha flashing only touches the image. -/
def PlayerS.update (p : PlayerS) (input : InputState) (delta_time : ℚ) : PlayerS :=
  let move_x : ℤ := (if input.move_left then -PLAYER_SPEED else 0) +
                    (if input.move_right then PLAYER_SPEED else 0)
  let r := keep_in_bounds { p.rect with x := p.rect.x + move_x } SCREEN_WIDTH SCREEN_HEIGHT
  { p with
    rect := r
    shoot_cooldown :=
      if p.shoot_cooldown > 0 then p.shoot_cooldown - delta_time else p.shoot_cooldown
    invulnerable_flash_timer :=
      if p.invulnerable_flash_timer > 0 then p.invulnerable_flash_timer - delta_time
      else p.invulnerable_flash_timer }

/-- Source `Player.can_shoot`. -/
def PlayerS.can_shoot (p : PlayerS) : Bool := p.shoot_cooldown ≤ 0

/-- Source `Player.take_damage`: unclamped life decrement plus flash-timer reset. -/
def PlayerS.take_damage (p : PlayerS) : PlayerS :=
  { p with lives := p.lives - 1,
           invulnerable_flash_timer := PLAYER_INVULNERABILITY_TIME }

/-- A `Projectile` sprite (the id distinguishes objects with equal fields,
standing in for Python object identity). -/
structure Proj where
  id : ℕ
  rect : Rect
  velocity_x : ℚ
  velocity_y : ℚ
  deriving Repr, DecidableEq

/-- Source `Projectile.__init__(x, y, vx, vy)`: fixed-size rect centered at (x, y). -/
def Proj.init (id : ℕ) (x y : ℤ) (vx vy : ℚ) : Proj :=
  { id := id
    rect := { x := x - PROJECTILE_WIDTH / 2, y := y - PROJECTILE_HEIGHT / 2,
              w := PROJECTILE_WIDTH, h := PROJECTILE_HEIGHT }
    velocity_x := vx
    velocity_y := vy }

/-- Source `Projectile.update(delta_time)`: `rect.x += vx*dt*60; rect.y += vy*dt*60`,
each assignment truncating to the rect's integer coordinate. -/
def Proj.update (p : Proj) (delta_time : ℚ) : Proj :=
  { p with rect :=
      { p.rect with
        x := pytrunc ((p.rect.x : ℚ) + p.velocity_x * delta_time * 60)
        y := pytrunc ((p.rect.y : ℚ) + p.velocity_y * delta_time * 60) } }

/-- Source `Player.shoot`: a projectile at the player's top-center moving straight up,
and the cooldown reset.  (The engine calls it only after `can_shoot`; the
method's own re-check cannot return `None` there.)  Returns the updated player
and the new projectile. -/
def PlayerS.shoot (p : PlayerS) (freshId : ℕ) : PlayerS × Proj :=
  let bullet_x := p.rect.x + p.rect.w / 2
  let bullet_y := p.rect.y
  ({ p with shoot_cooldown := PROJECTILE_COOLDOWN },
   Proj.init freshId bullet_x bullet_y 0 (-PROJECTILE_SPEED))

/-- An `Enemy` sprite.  `rotation`/`rotation_speed` only feed the cosmetic
rotation whose trigonometric bounding-box size is supplied as an oracle. -/
structure EnemyS where
  id : ℕ
  rect : Rect
  speed : ℚ
  size : ℤ
  deriving Repr, DecidableEq

/-- Source `Enemy.__init__(x, y, speed, size)`: a `size × size` rect centered at
`(x, y)`. -/
def EnemyS.init (id : ℕ) (x y : ℤ) (speed : ℚ) (size : ℤ) : EnemyS :=
  { id := id
    rect := { x := x - size / 2, y := y - size / 2, w := size, h := size }
    speed := speed
    size := size }

/-- Source `Enemy.update(delta_time)`: `rect.y += speed*dt*60` (truncated), then the
rotation effect replaces the rect by the rotated image's bounding square
re-centered on the old center.  `newSize` is the oracle for the rotated
bounding-box size (`pygame.transform.rotate` uses floating trigonometry; with
rotation angle 0 it equals the old size). -/
def EnemyS.update (e : EnemyS) (delta_time : ℚ) (newSize : ℤ) : EnemyS :=
  let r1 := { e.rect with y := pytrunc ((e.rect.y : ℚ) + e.speed * delta_time * 60) }
  let cx := r1.x + r1.w / 2
  let cy := r1.y + r1.h / 2
  { e with rect := { x := cx - newSize / 2, y := cy - newSize / 2,
                     w := newSize, h := newSize } }

/-! ### Group collision (pygame.sprite semantics used by collision_service) -/

/-- Source `pygame.sprite.spritecollide(sprite, group, False)`: every group member
whose rect overlaps the given rect, in group order. -/
def spritecollide (r : Rect) (group : List EnemyS) : List EnemyS :=
  group.filter (fun e => check_collision r e.rect)

/-- Source `pygame.sprite.groupcollide(projectiles, enemies, True, True)`, the body of
`check_group_collision` as `check_collisions` calls it: projectiles are
processed in group order; each is collided against the enemies *still alive*
(earlier kills already removed), its hits are killed, and the projectile
itself is killed when its hit list is non-empty.  Returns the collision
dictionary, the surviving projectiles and the surviving enemies. -/
def groupcollide : List Proj → List EnemyS →
    List (Proj × List EnemyS) × List Proj × List EnemyS
  | [], enemies => ([], [], enemies)
  | p :: rest, enemies =>
    let hits := enemies.filter (fun e => check_collision p.rect e.rect)
    if hits.isEmpty then
      let r := groupcollide rest enemies
      (r.1, p :: r.2.1, r.2.2)
    else
      let remaining := enemies.filter (fun e => !(check_collision p.rect e.rect))
      let r := groupcollide rest remaining
      ((p, hits) :: r.1, r.2.1, r.2.2)

/-- Source `check_group_collision(group1, group2, True, True)` is a direct wrapper
around `pygame.sprite.groupcollide`. -/
def check_group_collision (projectiles : List Proj) (enemies : List EnemyS) :
    List (Proj × List EnemyS) × List Proj × List EnemyS :=
  groupcollide projectiles enemies

/-! ### The game engine (src/services/game_engine.py) -/

/-- The engine state: the sprite groups, the score service, difficulty and
spawn state and the gameplay invulnerability timer.  `all_sprites` is not a
separate field: it always holds exactly the player, the live projectiles and
the live enemies (the only `add`/`kill` sites keep the groups in sync), and is
reconstructed by `GameEngine.all_sprites`. -/
structure GameEngine where
  player : PlayerS
  player_projectiles : List Proj
  enemies : List EnemyS
  score_service : ScoreService
  enemy_spawn_timer : ℚ
  current_spawn_rate : ℚ
  next_difficulty_score : ℤ
  current_enemy_speed_min : ℚ
  current_enemy_speed_max : ℚ
  player_invulnerable_timer : ℚ
  deriving Repr, DecidableEq

/-- Source `GameEngine.__init__` (with the score service loading from the given
disk): player centered at `(800*0.5, 600*0.85) = (400, 510)`. -/
def GameEngine.init (d : Disk) : GameEngine :=
  { player := PlayerS.init 400 510
    player_projectiles := []
    enemies := []
    score_service := ScoreService.init d
    enemy_spawn_timer := 0
    current_spawn_rate := ENEMY_SPAWN_RATE
    next_difficulty_score := DIFFICULTY_INCREASE_INTERVAL
    current_enemy_speed_min := ENEMY_SPEED_MIN
    current_enemy_speed_max := ENEMY_SPEED_MAX
    player_invulnerable_timer := 0 }

/-- A member of the `all_sprites` group. -/
inductive Sprite where
  | player : PlayerS → Sprite
  | projectile : Proj → Sprite
  | enemy : EnemyS → Sprite
  deriving Repr, DecidableEq

/-- The `all_sprites` group: the player (added first, in `__init__`/`reset`)
followed by the projectiles and enemies in insertion order. -/
def GameEngine.all_sprites (e : GameEngine) : List Sprite :=
  Sprite.player e.player ::
    (e.player_projectiles.map Sprite.projectile ++ e.enemies.map Sprite.enemy)

/-- One dispatch of `Group.update(delta_time)`: the group calls
`sprite.update(delta_time)` with that single positional argument on every
member.  `Projectile.update` and `Enemy.update` accept it; `Player.update` is
declared `def update(self, input_state, delta_time)`, so the one-argument call
raises `TypeError` before any of its body runs.  `rot` is the oracle giving
each enemy its rotated bounding-box size for this frame. -/
def sprite_update (delta_time : ℚ) (rot : EnemyS → ℤ) :
    Sprite → Except PyError Sprite
  | .player _ => .error .typeError
  | .projectile p => .ok (.projectile (p.update delta_time))
  | .enemy en => .ok (.enemy (en.update delta_time (rot en)))

/-- Source `pygame.sprite.Group.update(delta_time)` over a member list: the first
raised exception propagates. -/
def group_update (delta_time : ℚ) (rot : EnemyS → ℤ) :
    List Sprite → Except PyError (List Sprite)
  | [] => .ok []
  | s :: rest => do
    let s1 ← sprite_update delta_time rot s
    let rest1 ← group_update delta_time rot rest
    pure (s1 :: rest1)

/-- Source `GameEngine.spawn_enemy` with the three random draws supplied as oracles:
`x = random.randint(ENEMY_SIZE_MAX, SCREEN_WIDTH - ENEMY_SIZE_MAX)`,
`speed = random.uniform(min, max)`, `size = random.randint(20, 40)`;
the enemy spawns centered at `(x, -ENEMY_SIZE_MAX)` and is appended to the
`enemies` (and `all_sprites`) group. -/
def GameEngine.spawn_enemy (e : GameEngine) (x : ℤ) (speed : ℚ) (size : ℤ)
    (freshId : ℕ) : GameEngine :=
  { e with enemies := e.enemies ++ [EnemyS.init freshId x (-ENEMY_SIZE_MAX) speed size] }

/-- Lines 228–233 of `GameEngine.check_collisions`: projectile–enemy
resolution.  `check_group_collision(player_projectiles, enemies, True, True)`
kills both sides, then `ENEMY_POINTS` are added per enemy in each hit list. -/
def resolve_projectile_enemy (projectiles : List Proj) (enemies : List EnemyS)
    (ss : ScoreService) : List Proj × List EnemyS × ScoreService :=
  let r := check_group_collision projectiles enemies
  let ss1 := r.1.foldl
    (fun s rec => rec.2.foldl (fun s2 _ => s2.add_points ENEMY_POINTS) s) ss
  (r.2.1, r.2.2, ss1)

/-- Lines 236–250 of `GameEngine.check_collisions`: enemy–player resolution.
Skipped unless `player_invulnerable_timer <= 0`; on a non-empty
`spritecollide` hit list the player takes one damage, the engine timer is set
to `PLAYER_INVULNERABILITY_TIME` and every enemy in the hit list is killed. -/
def resolve_enemy_player (player : PlayerS) (invuln : ℚ) (enemies : List EnemyS) :
    PlayerS × ℚ × List EnemyS :=
  if invuln ≤ 0 then
    let player_hits := spritecollide player.rect enemies
    if player_hits.isEmpty then (player, invuln, enemies)
    else (player.take_damage, PLAYER_INVULNERABILITY_TIME,
          enemies.filter (fun en => !(check_collision player.rect en.rect)))
  else (player, invuln, enemies)

/-- Source `GameEngine.check_collisions`: projectile–enemy resolution followed by
enemy–player resolution. -/
def GameEngine.check_collisions (e : GameEngine) : GameEngine :=
  let r := resolve_projectile_enemy e.player_projectiles e.enemies e.score_service
  let r2 := resolve_enemy_player e.player e.player_invulnerable_timer r.2.1
  { e with player := r2.1, player_projectiles := r.1, enemies := r2.2.2,
           score_service := r.2.2, player_invulnerable_timer := r2.2.1 }

/-- Source `GameEngine.cleanup_sprites`: kill every projectile and enemy whose rect is
out of bounds with a 100-pixel margin. -/
def GameEngine.cleanup_sprites (e : GameEngine) : GameEngine :=
  { e with
    player_projectiles := e.player_projectiles.filter
      (fun p => !(check_out_of_bounds p.rect SCREEN_WIDTH SCREEN_HEIGHT 100))
    enemies := e.enemies.filter
      (fun en => !(check_out_of_bounds en.rect SCREEN_WIDTH SCREEN_HEIGHT 100)) }

/-- Source `GameEngine.update_difficulty`: one threshold check per call; on a
crossing, the spawn rate and both speed bounds are multiplied once and the
threshold advances by the fixed increment. -/
def GameEngine.update_difficulty (e : GameEngine) : GameEngine :=
  let current_score := e.score_service.current_score
  if current_score ≥ e.next_difficulty_score then
    { e with
      current_spawn_rate := e.current_spawn_rate * SPAWN_RATE_MULTIPLIER
      current_enemy_speed_min := e.current_enemy_speed_min * ENEMY_SPEED_MULTIPLIER
      current_enemy_speed_max := e.current_enemy_speed_max * ENEMY_SPEED_MULTIPLIER
      next_difficulty_score := e.next_difficulty_score + DIFFICULTY_INCREASE_INTERVAL }
  else e

/-- Lines 150–156 of `GameEngine.update`: accumulate the spawn timer, spawn an
enemy (resetting the timer) when it reaches the current spawn rate, then run
`check_collisions`.  This is the contiguous spawn-then-collide code sequence
the frame order fixes. -/
def GameEngine.spawn_then_collide (e : GameEngine) (delta_time : ℚ) (x : ℤ)
    (speed : ℚ) (size : ℤ) (freshId : ℕ) : GameEngine :=
  let timer := e.enemy_spawn_timer + delta_time
  let e1 :=
    if timer ≥ e.current_spawn_rate then
      { GameEngine.spawn_enemy e x speed size freshId with enemy_spawn_timer := 0 }
    else { e with enemy_spawn_timer := timer }
  GameEngine.check_collisions e1

/-- Line 165–166 of `GameEngine.update`: the gated (unclamped) decrement of the
engine's invulnerability timer. -/
def decrement_invulnerability (timer delta_time : ℚ) : ℚ :=
  if timer > 0 then timer - delta_time else timer

/-- Rebuild the typed groups from an updated `all_sprites` list (object
identity: group membership in pygame is per object, mutated in place). -/
def sprites_player (sprites : List Sprite) (dflt : PlayerS) : PlayerS :=
  (sprites.filterMap (fun s => match s with | .player p => some p | _ => none)).headD dflt

def sprites_projectiles (sprites : List Sprite) : List Proj :=
  sprites.filterMap (fun s => match s with | .projectile p => some p | _ => none)

def sprites_enemies (sprites : List Sprite) : List EnemyS :=
  sprites.filterMap (fun s => match s with | .enemy en => some en | _ => none)

/-- Source `GameEngine.update(input_state)` for one frame.  `delta_time` is what
`clock.tick(FPS)/1000` returned; `x`, `speed`, `size` are the random spawn
draws; `rot` the rotated-bounding-box oracle; `freshId` the identity source
for objects created this frame.  Python exceptions escape as `.error`. -/
def GameEngine.update (e : GameEngine) (input : InputState) (delta_time : ℚ)
    (x : ℤ) (speed : ℚ) (size : ℤ) (rot : EnemyS → ℤ) (freshId : ℕ) :
    Except PyError GameEngine :=
  -- self.player.update(input_state, self.delta_time)
  let player1 := e.player.update input delta_time
  -- shooting: engine checks can_shoot, player.shoot creates the projectile
  let shot :=
    if input.shoot && player1.can_shoot then
      ((player1.shoot freshId).1, e.player_projectiles ++ [(player1.shoot freshId).2])
    else (player1, e.player_projectiles)
  let e1 := { e with player := shot.1, player_projectiles := shot.2 }
  -- self.all_sprites.update(self.delta_time): the single-argument dispatch
  -- reaches the player (a member of all_sprites) and raises TypeError there.
  match group_update delta_time rot e1.all_sprites with
  | .error err => .error err
  | .ok sprites =>
    -- (unreachable continuation, kept faithful to the source order)
    let e2 := { e1 with
      player := sprites_player sprites e1.player
      player_projectiles := sprites_projectiles sprites
      enemies := sprites_enemies sprites }
    let e3 := e2.spawn_then_collide delta_time x speed size (freshId + 1)
    let e4 := e3.cleanup_sprites
    let e5 := e4.update_difficulty
    .ok { e5 with player_invulnerable_timer :=
            decrement_invulnerability e5.player_invulnerable_timer delta_time }

/-- Source `GameEngine.is_game_over`: reports `lives <= 0` and, whenever that holds,
(re)saves the high score to disk. -/
def GameEngine.is_game_over (e : GameEngine) (ok : Bool) (d : Disk) : Bool × Disk :=
  let is_over := e.player.lives ≤ 0
  (is_over, if is_over then save_high_score e.score_service.high_score ok d else d)

/-! ## Theorems -/

/-! ### C6: difficulty escalation is monotone and at most once per call -/

/-- C6: `update_difficulty` never decreases `next_difficulty_score`, never
increases `current_spawn_rate`, never decreases either enemy-speed bound
(given the non-negative rates/speeds every reachable state has), and applies
at most one escalation per call: the result is either the unchanged state or
the state with exactly one multiplicative escalation and one threshold
advance. -/
theorem update_difficulty_monotone (e : GameEngine)
    (hr : 0 ≤ e.current_spawn_rate) (hmin : 0 ≤ e.current_enemy_speed_min)
    (hmax : 0 ≤ e.current_enemy_speed_max) :
    e.next_difficulty_score ≤ e.update_difficulty.next_difficulty_score ∧
    e.update_difficulty.current_spawn_rate ≤ e.current_spawn_rate ∧
    e.current_enemy_speed_min ≤ e.update_difficulty.current_enemy_speed_min ∧
    e.current_enemy_speed_max ≤ e.update_difficulty.current_enemy_speed_max ∧
    (e.update_difficulty = e ∨
      (e.update_difficulty.current_spawn_rate
          = e.current_spawn_rate * SPAWN_RATE_MULTIPLIER ∧
       e.update_difficulty.current_enemy_speed_min
          = e.current_enemy_speed_min * ENEMY_SPEED_MULTIPLIER ∧
       e.update_difficulty.current_enemy_speed_max
          = e.current_enemy_speed_max * ENEMY_SPEED_MULTIPLIER ∧
       e.update_difficulty.next_difficulty_score
          = e.next_difficulty_score + DIFFICULTY_INCREASE_INTERVAL)) := by
  unfold GameEngine.update_difficulty
  dsimp only
  split
  · refine ⟨?_, ?_, ?_, ?_, Or.inr ⟨rfl, rfl, rfl, rfl⟩⟩ <;>
      simp only [SPAWN_RATE_MULTIPLIER, ENEMY_SPEED_MULTIPLIER,
        DIFFICULTY_INCREASE_INTERVAL] <;> linarith
  · exact ⟨le_refl _, le_refl _, le_refl _, le_refl _, Or.inl rfl⟩

/-- Witness for C6 at the freshly initialised engine. -/
theorem update_difficulty_monotone_holds :
    (GameEngine.init ⟨FileState.missing, 0⟩).next_difficulty_score ≤
      (GameEngine.init ⟨FileState.missing, 0⟩).update_difficulty.next_difficulty_score ∧
    (GameEngine.init ⟨FileState.missing, 0⟩).update_difficulty.current_spawn_rate ≤
      (GameEngine.init ⟨FileState.missing, 0⟩).current_spawn_rate :=
  ⟨(update_difficulty_monotone _
      (by norm_num [GameEngine.init, ENEMY_SPAWN_RATE])
      (by norm_num [GameEngine.init, ENEMY_SPEED_MIN])
      (by norm_num [GameEngine.init, ENEMY_SPEED_MAX])).1,
   (update_difficulty_monotone _
      (by norm_num [GameEngine.init, ENEMY_SPAWN_RATE])
      (by norm_num [GameEngine.init, ENEMY_SPEED_MIN])
      (by norm_num [GameEngine.init, ENEMY_SPEED_MAX])).2.1⟩

/-! ### C9: score persistence error handling and roundtrip -/

/-- C9: `load_high_score` returns 0 on a missing file and 0 on a corrupt file
(the exception is caught inside the method); a failed `save_high_score` is
caught inside the method and leaves the disk unchanged (nothing propagates to
the game); and after a successful save of the in-memory high score `v` a
subsequent load returns `v` — in particular saving 500 and loading gives
500. -/
theorem load_save_roundtrip :
    load_high_score FileState.missing = 0 ∧
    load_high_score FileState.corrupt = 0 ∧
    (∀ (v : ℤ) (d : Disk), save_high_score v false d = d) ∧
    (∀ (v : ℤ) (d : Disk), load_high_score (save_high_score v true d).file = v) ∧
    load_high_score (save_high_score 500 true ⟨FileState.missing, 0⟩).file = 500 := by
  refine ⟨rfl, rfl, fun v d => rfl, fun v d => ?_, rfl⟩
  simp [save_high_score, json_dump, load_high_score, json_load]

/-! ### C10: the in-memory high score dominates the current score -/

/-- Helper: each in-memory operation preserves `0 ≤ high_score` and
`current_score ≤ high_score`. -/
theorem scoreInvariant_applyOp (s : ScoreService) (op : ScoreOp)
    (h1 : 0 ≤ s.high_score) (h2 : s.current_score ≤ s.high_score) :
    0 ≤ (s.applyOp op).high_score ∧
      (s.applyOp op).current_score ≤ (s.applyOp op).high_score := by
  cases op with
  | add p =>
    simp only [ScoreService.applyOp, ScoreService.add_points]
    constructor
    · split <;> omega
    · split <;> omega
  | reset =>
    simp only [ScoreService.applyOp, ScoreService.reset_score]
    exact ⟨h1, h1⟩

/-- Helper: the invariant holds after any sequence of operations. -/
theorem scoreInvariant_runOps (ops : List ScoreOp) (s : ScoreService)
    (h1 : 0 ≤ s.high_score) (h2 : s.current_score ≤ s.high_score) :
    0 ≤ (s.runOps ops).high_score ∧
      (s.runOps ops).current_score ≤ (s.runOps ops).high_score := by
  induction ops generalizing s with
  | nil => exact ⟨h1, h2⟩
  | cons op ops ih =>
    have h := scoreInvariant_applyOp s op h1 h2
    exact ih (s.applyOp op) h.1 h.2

/-- C10: starting from `ScoreService.__init__` over any disk whose load yields
a non-negative value (the scores the service itself writes are non-negative),
`high_score ≥ current_score` holds after every sequence of in-memory score
operations; moreover every `add_points` call sets the high score to the
running maximum of the previous high score and the new current score. -/
theorem high_score_invariant (d : Disk) (ops : List ScoreOp)
    (hload : 0 ≤ load_high_score d.file) :
    ((ScoreService.init d).runOps ops).current_score ≤
      ((ScoreService.init d).runOps ops).high_score ∧
    ∀ (s : ScoreService) (p : ℤ),
      (s.add_points p).high_score = max s.high_score (s.current_score + p) := by
  constructor
  · exact (scoreInvariant_runOps ops (ScoreService.init d) hload hload).2
  · intro s p
    simp only [ScoreService.add_points]
    split <;> omega

/-- Witness for C10: one kill's worth of points on a fresh service. -/
theorem high_score_invariant_holds :
    ((ScoreService.init ⟨FileState.missing, 0⟩).runOps [ScoreOp.add 10]).current_score ≤
      ((ScoreService.init ⟨FileState.missing, 0⟩).runOps [ScoreOp.add 10]).high_score :=
  (high_score_invariant ⟨FileState.missing, 0⟩ [ScoreOp.add 10] (by decide)).1

/-! ### C5: timers are gated, not clamped -/

/-- C5 counterexample: the claim says no timer is ever negative because every
decrement site clamps.  Take the player right after a shot
(`shoot_cooldown = PROJECTILE_COOLDOWN = 0.3`) and a frame with
`delta_time = 0.5`: `Player.update` leaves the cooldown at `-0.2 < 0` — the
decrement site only tests `> 0` before subtracting, it does not clamp. -/
theorem shoot_cooldown_goes_negative :
    (PlayerS.update
        { rect := ⟨385, 490, 30, 40⟩, lives := 3, max_lives := 3,
          shoot_cooldown := 3/10, invulnerable_flash_timer := 0 }
        ⟨false, false, false⟩ (1/2)).shoot_cooldown < 0 := by
  norm_num [PlayerS.update, keep_in_bounds]

/-- C5 as amended: every timer decrement site (player shoot cooldown, player
flash timer, engine invulnerability timer) is gated on the timer being
positive and subtracts exactly `delta_time`, so a timer never drops below
`-delta_time` and never increases — but it is not clamped at 0 and can be
transiently negative; `take_damage` decrements lives by exactly 1 with no
clamp. -/
theorem timer_decrements_gated_not_clamped (p : PlayerS) (input : InputState)
    (delta_time : ℚ) (t : ℚ) (hdt : 0 ≤ delta_time)
    (hc : 0 ≤ p.shoot_cooldown) (hf : 0 ≤ p.invulnerable_flash_timer) (ht : 0 ≤ t) :
    (-delta_time ≤ (p.update input delta_time).shoot_cooldown ∧
      (p.update input delta_time).shoot_cooldown ≤ p.shoot_cooldown) ∧
    (-delta_time ≤ (p.update input delta_time).invulnerable_flash_timer ∧
      (p.update input delta_time).invulnerable_flash_timer ≤ p.invulnerable_flash_timer) ∧
    (-delta_time ≤ decrement_invulnerability t delta_time ∧
      decrement_invulnerability t delta_time ≤ t) ∧
    (∀ q : PlayerS, q.take_damage.lives = q.lives - 1) := by
  refine ⟨?_, ?_, ?_, fun q => rfl⟩ <;>
    simp only [PlayerS.update, decrement_invulnerability] <;>
    constructor <;> split <;> linarith

/-- Witness for C5's amended statement: the same post-shot player and
half-second frame; the cooldown stays within `[-0.5, 0.3]`. -/
theorem timer_decrements_bounds_hold :
    -(1/2 : ℚ) ≤ (PlayerS.update
        { rect := ⟨385, 490, 30, 40⟩, lives := 3, max_lives := 3,
          shoot_cooldown := 3/10, invulnerable_flash_timer := 0 }
        ⟨false, false, false⟩ (1/2)).shoot_cooldown ∧
    (PlayerS.update
        { rect := ⟨385, 490, 30, 40⟩, lives := 3, max_lives := 3,
          shoot_cooldown := 3/10, invulnerable_flash_timer := 0 }
        ⟨false, false, false⟩ (1/2)).shoot_cooldown ≤ 3/10 :=
  (timer_decrements_gated_not_clamped
    { rect := ⟨385, 490, 30, 40⟩, lives := 3, max_lives := 3,
      shoot_cooldown := 3/10, invulnerable_flash_timer := 0 }
    ⟨false, false, false⟩ (1/2) 0
    (by norm_num) (by norm_num) (by norm_num) (by norm_num)).1

/-! ### C2: is_game_over and high-score persistence -/

/-- C2 counterexample: with the player at 0 lives, a first `is_game_over` call
reports game over and writes the high score; a second call while still game
over writes it AGAIN (the disk's write count reaches 2) — there is no
once-per-transition latch, contradicting "subsequent calls do not persist it
again". -/
theorem is_game_over_second_poll_saves_again :
    (let e : GameEngine := { GameEngine.init ⟨FileState.missing, 0⟩ with
        player := { PlayerS.init 400 510 with lives := 0 } }
     let d1 := (e.is_game_over true ⟨FileState.missing, 0⟩).2
     (e.is_game_over true d1).1 = true ∧ (e.is_game_over true d1).2.writes = 2) := by
  constructor <;> rfl

/-- C2 as amended: `is_game_over` returns true iff the player's lives are
≤ 0, and EVERY call made while lives ≤ 0 performs a high-score save (one disk
write per successful poll); calls while lives > 0 leave the disk untouched.
Exactly-once persistence per game-over transition holds only because the main
loop polls `is_game_over` exclusively from the PLAYING state, which it leaves
on the first true answer. -/
theorem is_game_over_iff_and_saves (e : GameEngine) (d : Disk) (ok : Bool) :
    ((e.is_game_over ok d).1 = true ↔ e.player.lives ≤ 0) ∧
    (e.player.lives ≤ 0 → (e.is_game_over true d).2.writes = d.writes + 1) ∧
    (0 < e.player.lives → (e.is_game_over ok d).2 = d) := by
  refine ⟨?_, fun h => ?_, fun h => ?_⟩
  · simp [GameEngine.is_game_over]
  · simp [GameEngine.is_game_over, if_pos h, save_high_score, json_dump]
  · simp [GameEngine.is_game_over, if_neg (not_le.mpr h)]

/-- Witness for C2's amended statement at a fresh engine (3 lives: the poll
answers false and the disk is untouched) and a dead-player engine (the poll
writes once). -/
theorem is_game_over_behaviour_holds :
    ((GameEngine.init ⟨FileState.missing, 0⟩).is_game_over true
        ⟨FileState.missing, 0⟩).2 = ⟨FileState.missing, 0⟩ ∧
    ({ GameEngine.init ⟨FileState.missing, 0⟩ with
        player := { PlayerS.init 400 510 with lives := 0 } }.is_game_over true
        ⟨FileState.missing, 5⟩).2.writes = 5 + 1 :=
  ⟨(is_game_over_iff_and_saves (GameEngine.init ⟨FileState.missing, 0⟩)
      ⟨FileState.missing, 0⟩ true).2.2 (by decide),
   (is_game_over_iff_and_saves
      { GameEngine.init ⟨FileState.missing, 0⟩ with
        player := { PlayerS.init 400 510 with lives := 0 } }
      ⟨FileState.missing, 5⟩ true).2.1 (by decide)⟩

/-! ### C4: enemy–player collision resolution -/

/-- C4: the enemy–player resolution step is skipped entirely while the
engine's invulnerability timer is positive (no overlap changes lives); with
the timer ≤ 0 and at least one enemy overlapping the player's rect, lives
decrease by exactly 1 (however many enemies hit at once), the timer is reset
to `PLAYER_INVULNERABILITY_TIME`, exactly the overlapping enemies are removed
and every non-overlapping enemy remains. -/
theorem resolve_enemy_player_spec (player : PlayerS) (invuln : ℚ)
    (enemies : List EnemyS) :
    (0 < invuln →
      resolve_enemy_player player invuln enemies = (player, invuln, enemies)) ∧
    (invuln ≤ 0 → (∃ en ∈ enemies, check_collision player.rect en.rect) →
      ((resolve_enemy_player player invuln enemies).1.lives = player.lives - 1 ∧
       (resolve_enemy_player player invuln enemies).2.1 = PLAYER_INVULNERABILITY_TIME ∧
       (resolve_enemy_player player invuln enemies).2.2 =
         enemies.filter (fun en => !(check_collision player.rect en.rect)) ∧
       ∀ en ∈ enemies, check_collision player.rect en.rect →
         en ∉ (resolve_enemy_player player invuln enemies).2.2)) := by
  constructor
  · intro h
    unfold resolve_enemy_player
    rw [if_neg (not_le.mpr h)]
  · intro h hex
    have hnil : enemies.filter (fun e => check_collision player.rect e.rect) ≠ [] := by
      obtain ⟨en, hen, hc⟩ := hex
      intro hn
      exact (List.filter_eq_nil.mp hn en hen) hc
    have hemp : ¬ ((spritecollide player.rect enemies).isEmpty = true) := by
      simpa [spritecollide, List.isEmpty_iff] using hnil
    have hres : resolve_enemy_player player invuln enemies =
        (player.take_damage, PLAYER_INVULNERABILITY_TIME,
         enemies.filter (fun en => !(check_collision player.rect en.rect))) := by
      unfold resolve_enemy_player
      rw [if_pos h, if_neg hemp]
    refine ⟨by rw [hres]; rfl, by rw [hres], by rw [hres], ?_⟩
    intro en _ hc hmem
    rw [hres] at hmem
    have := (List.mem_filter.mp hmem).2
    simp [hc] at this

/-- Witness for C4: player rect `(385,490,30,40)`, timer 0, one enemy at
`(390,500,30,30)` overlapping it: lives drop from 3 to 2, the timer is reset
to 2 seconds and the enemy list empties. -/
theorem resolve_enemy_player_spec_holds :
    (resolve_enemy_player
        { rect := ⟨385, 490, 30, 40⟩, lives := 3, max_lives := 3,
          shoot_cooldown := 0, invulnerable_flash_timer := 0 }
        0 [⟨1, ⟨390, 500, 30, 30⟩, 2, 30⟩]).1.lives = 3 - 1 ∧
    (resolve_enemy_player
        { rect := ⟨385, 490, 30, 40⟩, lives := 3, max_lives := 3,
          shoot_cooldown := 0, invulnerable_flash_timer := 0 }
        0 [⟨1, ⟨390, 500, 30, 30⟩, 2, 30⟩]).2.1 = PLAYER_INVULNERABILITY_TIME :=
  ⟨((resolve_enemy_player_spec
      { rect := ⟨385, 490, 30, 40⟩, lives := 3, max_lives := 3,
        shoot_cooldown := 0, invulnerable_flash_timer := 0 }
      0 [⟨1, ⟨390, 500, 30, 30⟩, 2, 30⟩]).2 (by norm_num)
      ⟨⟨1, ⟨390, 500, 30, 30⟩, 2, 30⟩, by simp, by decide⟩).1,
   ((resolve_enemy_player_spec
      { rect := ⟨385, 490, 30, 40⟩, lives := 3, max_lives := 3,
        shoot_cooldown := 0, invulnerable_flash_timer := 0 }
      0 [⟨1, ⟨390, 500, 30, 30⟩, 2, 30⟩]).2 (by norm_num)
      ⟨⟨1, ⟨390, 500, 30, 30⟩, 2, 30⟩, by simp, by decide⟩).2.1⟩

/-! ### C3: projectile–enemy collision resolution -/

/-- Unfolding lemma for `groupcollide` on a non-empty projectile list. -/
theorem groupcollide_cons (p : Proj) (rest : List Proj) (enemies : List EnemyS) :
    groupcollide (p :: rest) enemies =
      if (enemies.filter (fun e => check_collision p.rect e.rect)).isEmpty then
        ((groupcollide rest enemies).1, p :: (groupcollide rest enemies).2.1,
         (groupcollide rest enemies).2.2)
      else
        ((p, enemies.filter (fun e => check_collision p.rect e.rect)) ::
           (groupcollide rest
             (enemies.filter (fun e => !(check_collision p.rect e.rect)))).1,
         (groupcollide rest
           (enemies.filter (fun e => !(check_collision p.rect e.rect)))).2.1,
         (groupcollide rest
           (enemies.filter (fun e => !(check_collision p.rect e.rect)))).2.2) := by
  rfl

/-- The enemies that survive `groupcollide` are exactly those overlapping no
projectile of the pass. -/
theorem groupcollide_surviving_enemies (projs : List Proj) :
    ∀ enemies : List EnemyS,
      (groupcollide projs enemies).2.2 =
        enemies.filter (fun en => projs.all (fun p => !(check_collision p.rect en.rect))) := by
  induction projs with
  | nil =>
    intro enemies
    simp [groupcollide, List.all_nil, List.filter_true]
  | cons p rest ih =>
    intro enemies
    rw [groupcollide_cons]
    by_cases h : (enemies.filter (fun e => check_collision p.rect e.rect)).isEmpty
    · rw [if_pos h]
      dsimp only
      rw [ih enemies]
      apply List.filter_congr
      intro en hen
      have hno := List.filter_eq_nil.mp (List.isEmpty_iff.mp h) en hen
      simp only [Bool.not_eq_true] at hno
      simp [List.all_cons, hno]
    · rw [if_neg h]
      dsimp only
      rw [ih, List.filter_filter]
      apply List.filter_congr
      intro en hen
      simp [List.all_cons, Bool.and_comm]

/-- Total number of enemies recorded as killed in the collision dictionary. -/
def total_kills (recs : List (Proj × List EnemyS)) : ℕ :=
  (recs.map (fun r => r.2.length)).sum

/-- Splitting a list by a Boolean predicate preserves total length. -/
theorem length_filter_split (l : List EnemyS) (f : EnemyS → Bool) :
    (l.filter f).length + (l.filter (fun a => !(f a))).length = l.length := by
  induction l with
  | nil => rfl
  | cons a l ih =>
    cases h : f a <;> simp [List.filter_cons, h] <;> omega

/-- Kills recorded by `groupcollide` plus surviving enemies account for every
enemy. -/
theorem groupcollide_total_kills (projs : List Proj) :
    ∀ enemies : List EnemyS,
      total_kills (groupcollide projs enemies).1 +
        ((groupcollide projs enemies).2.2).length = enemies.length := by
  induction projs with
  | nil =>
    intro enemies
    simp [groupcollide, total_kills]
  | cons p rest ih =>
    intro enemies
    rw [groupcollide_cons]
    by_cases h : (enemies.filter (fun e => check_collision p.rect e.rect)).isEmpty
    · rw [if_pos h]
      exact ih enemies
    · rw [if_neg h]
      simp only [total_kills, List.map_cons, List.sum_cons]
      have h2 := ih (enemies.filter (fun e => !(check_collision p.rect e.rect)))
      have h3 := length_filter_split enemies (fun e => check_collision p.rect e.rect)
      simp only [total_kills] at h2
      omega

/-- The inner scoring loop adds `ENEMY_POINTS` per enemy of one hit list. -/
theorem foldl_add_points_current (l : List EnemyS) (s : ScoreService) :
    (l.foldl (fun s2 _ => s2.add_points ENEMY_POINTS) s).current_score =
      s.current_score + ENEMY_POINTS * (l.length : ℤ) := by
  induction l generalizing s with
  | nil => simp
  | cons a l ih =>
    rw [List.foldl_cons, ih]
    simp only [ScoreService.add_points, List.length_cons]
    push_cast
    ring

/-- The scoring loop of `check_collisions` adds `ENEMY_POINTS` per recorded
kill. -/
theorem foldl_recs_current (recs : List (Proj × List EnemyS)) (s : ScoreService) :
    (recs.foldl
        (fun acc rec => rec.2.foldl (fun s2 _ => s2.add_points ENEMY_POINTS) acc)
        s).current_score =
      s.current_score + ENEMY_POINTS * (total_kills recs : ℤ) := by
  induction recs generalizing s with
  | nil => simp [total_kills]
  | cons r recs ih =>
    rw [List.foldl_cons, ih, foldl_add_points_current]
    simp only [total_kills, List.map_cons, List.sum_cons]
    push_cast
    ring

/-- A projectile overlapping no enemy at all survives the pass. -/
theorem groupcollide_clean_proj_survives (projs : List Proj) :
    ∀ (enemies : List EnemyS) (p : Proj), p ∈ projs →
      (∀ en ∈ enemies, ¬ check_collision p.rect en.rect) →
      p ∈ (groupcollide projs enemies).2.1 := by
  induction projs with
  | nil => intro _ _ hp _; exact absurd hp (List.not_mem_nil _)
  | cons q rest ih =>
    intro enemies p hp hclean
    rw [groupcollide_cons]
    by_cases h : (enemies.filter (fun e => check_collision q.rect e.rect)).isEmpty
    · rw [if_pos h]
      dsimp only
      rcases List.mem_cons.mp hp with rfl | hp2
      · exact List.mem_cons_self _ _
      · exact List.mem_cons_of_mem _ (ih enemies p hp2 hclean)
    · rw [if_neg h]
      dsimp only
      rcases List.mem_cons.mp hp with rfl | hp2
      · exact absurd (by rw [List.isEmpty_iff, List.filter_eq_nil]; exact hclean) h
      · exact ih _ p hp2 (fun en hen => hclean en (List.mem_filter.mp hen).1)

/-- C3 counterexample: two projectiles both overlapping the single enemy
`(0,0,10,10)`.  The first projectile kills it; the second — which also
overlapped that enemy — finds nothing left and SURVIVES the pass, refuting
"for every projectile whose bounding box overlapped at least one enemy, that
projectile ... [has] been removed". -/
theorem groupcollide_overlapping_projectile_survives :
    check_collision (⟨1, 1, 5, 5⟩ : Rect) (⟨0, 0, 10, 10⟩ : Rect) = true ∧
    (groupcollide
        [⟨1, ⟨0, 0, 10, 10⟩, 0, -8⟩, ⟨2, ⟨1, 1, 5, 5⟩, 0, -8⟩]
        [⟨1, ⟨0, 0, 10, 10⟩, 1, 10⟩]).2.1 = [⟨2, ⟨1, 1, 5, 5⟩, 0, -8⟩] := by
  constructor <;> rfl

/-- C3 as amended: after the projectile–enemy resolution pass, every enemy
that overlapped some projectile has been removed and exactly the enemies
overlapping no projectile remain; the score has increased by exactly
`ENEMY_POINTS` per removed enemy (one projectile may destroy several enemies
in one pass); and every projectile overlapping no enemy survives.  A
projectile that overlapped only enemies already destroyed by an earlier
projectile of the same pass, however, is NOT removed: projectiles are
processed sequentially against the enemies still alive. -/
theorem resolve_projectile_enemy_spec (projs : List Proj) (enemies : List EnemyS)
    (ss : ScoreService) :
    (resolve_projectile_enemy projs enemies ss).2.1 =
      enemies.filter (fun en => projs.all (fun p => !(check_collision p.rect en.rect))) ∧
    (∀ en ∈ enemies, (∃ p ∈ projs, check_collision p.rect en.rect) →
      en ∉ (resolve_projectile_enemy projs enemies ss).2.1) ∧
    (∀ en ∈ enemies, (∀ p ∈ projs, ¬ check_collision p.rect en.rect) →
      en ∈ (resolve_projectile_enemy projs enemies ss).2.1) ∧
    ((resolve_projectile_enemy projs enemies ss).2.2.current_score =
      ss.current_score + ENEMY_POINTS *
        ((enemies.length : ℤ) -
          (((resolve_projectile_enemy projs enemies ss).2.1).length : ℤ))) ∧
    (∀ p ∈ projs, (∀ en ∈ enemies, ¬ check_collision p.rect en.rect) →
      p ∈ (resolve_projectile_enemy projs enemies ss).1) := by
  have hsurv : (resolve_projectile_enemy projs enemies ss).2.1 =
      (groupcollide projs enemies).2.2 := rfl
  refine ⟨?_, ?_, ?_, ?_, ?_⟩
  · rw [hsurv, groupcollide_surviving_enemies]
  · intro en hen ⟨p, hp, hc⟩ hmem
    rw [hsurv, groupcollide_surviving_enemies] at hmem
    have hall := (List.mem_filter.mp hmem).2
    rw [List.all_eq_true] at hall
    have := hall p hp
    simp [hc] at this
  · intro en hen hclean
    rw [hsurv, groupcollide_surviving_enemies]
    refine List.mem_filter.mpr ⟨hen, ?_⟩
    rw [List.all_eq_true]
    intro p hp
    simp [hclean p hp]
  · have hscore : (resolve_projectile_enemy projs enemies ss).2.2 =
        (groupcollide projs enemies).1.foldl
          (fun acc rec => rec.2.foldl (fun s2 _ => s2.add_points ENEMY_POINTS) acc)
          ss := rfl
    rw [hscore, hsurv, foldl_recs_current]
    have hcount := groupcollide_total_kills projs enemies
    have : (total_kills (groupcollide projs enemies).1 : ℤ) =
        (enemies.length : ℤ) - (((groupcollide projs enemies).2.2).length : ℤ) := by
      omega
    rw [this]
  · intro p hp hclean
    exact groupcollide_clean_proj_survives projs enemies p hp hclean

/-- Witness for C3's amended statement: one projectile over one overlapping
enemy — the enemy collection empties and the score rises by 10. -/
theorem resolve_projectile_enemy_spec_holds :
    (resolve_projectile_enemy [⟨1, ⟨0, 0, 10, 10⟩, 0, -8⟩]
        [⟨1, ⟨2, 2, 5, 5⟩, 1, 5⟩] ⟨0, 0⟩).2.1 =
      List.filter
        (fun en => List.all [(⟨1, ⟨0, 0, 10, 10⟩, 0, -8⟩ : Proj)]
          (fun p => !(check_collision p.rect en.rect)))
        [⟨1, ⟨2, 2, 5, 5⟩, 1, 5⟩] ∧
    (resolve_projectile_enemy [⟨1, ⟨0, 0, 10, 10⟩, 0, -8⟩]
        [⟨1, ⟨2, 2, 5, 5⟩, 1, 5⟩] ⟨0, 0⟩).2.2.current_score =
      0 + ENEMY_POINTS *
        ((1 : ℤ) - (((resolve_projectile_enemy [⟨1, ⟨0, 0, 10, 10⟩, 0, -8⟩]
            [⟨1, ⟨2, 2, 5, 5⟩, 1, 5⟩] ⟨0, 0⟩).2.1).length : ℤ)) :=
  ⟨(resolve_projectile_enemy_spec [⟨1, ⟨0, 0, 10, 10⟩, 0, -8⟩]
      [⟨1, ⟨2, 2, 5, 5⟩, 1, 5⟩] ⟨0, 0⟩).1,
   (resolve_projectile_enemy_spec [⟨1, ⟨0, 0, 10, 10⟩, 0, -8⟩]
      [⟨1, ⟨2, 2, 5, 5⟩, 1, 5⟩] ⟨0, 0⟩).2.2.2.1⟩

/-! ### C7: spawn step before collision step -/

/-- Helper: when the accumulated spawn timer reaches the spawn rate, the
spawn-then-collide sequence of `update` equals `check_collisions` applied to
the state whose enemy collection already contains the newly spawned enemy. -/
theorem spawn_then_collide_eq_of_ge (e : GameEngine) (delta_time : ℚ) (x : ℤ)
    (speed : ℚ) (size : ℤ) (freshId : ℕ)
    (h : e.enemy_spawn_timer + delta_time ≥ e.current_spawn_rate) :
    e.spawn_then_collide delta_time x speed size freshId =
      GameEngine.check_collisions
        { e with
          enemies := e.enemies ++ [EnemyS.init freshId x (-ENEMY_SIZE_MAX) speed size]
          enemy_spawn_timer := 0 } := by
  unfold GameEngine.spawn_then_collide
  dsimp only
  rw [if_pos h]
  rfl

/-- Helper: when the accumulated timer is still below the spawn rate, no enemy
is spawned and the collision step sees the unchanged collection. -/
theorem spawn_then_collide_eq_of_lt (e : GameEngine) (delta_time : ℚ) (x : ℤ)
    (speed : ℚ) (size : ℤ) (freshId : ℕ)
    (h : ¬ (e.enemy_spawn_timer + delta_time ≥ e.current_spawn_rate)) :
    e.spawn_then_collide delta_time x speed size freshId =
      GameEngine.check_collisions
        { e with enemy_spawn_timer := e.enemy_spawn_timer + delta_time } := by
  unfold GameEngine.spawn_then_collide
  dsimp only
  rw [if_neg h]

/-- C7 counterexample: a projectile hovering at `(398,-56)` just above the
screen, spawn timer already at the spawn rate.  The spawn step creates an
enemy centered at `(400,-40)` and registers it; the collision step OF THE SAME
FRAME then destroys that newly spawned enemy together with the projectile and
credits 10 points — the enemy spawned this frame DID participate in this
frame's collision resolution, refuting "new spawns are eligible for collision
starting next frame". -/
theorem spawned_enemy_collides_same_frame :
    (let e0 : GameEngine :=
        { player := PlayerS.init 400 510
          player_projectiles := [⟨5, ⟨398, -56, 4, 12⟩, 0, -8⟩]
          enemies := []
          score_service := ⟨0, 0⟩
          enemy_spawn_timer := 3/2
          current_spawn_rate := 3/2
          next_difficulty_score := 100
          current_enemy_speed_min := 1
          current_enemy_speed_max := 3
          player_invulnerable_timer := 0 }
     let e1 := e0.spawn_then_collide 0 400 1 40 9
     e1.enemies = [] ∧ e1.player_projectiles = [] ∧
       e1.score_service.current_score = 10) := by
  dsimp only
  rw [spawn_then_collide_eq_of_ge _ 0 400 1 40 9 (by norm_num)]
  refine ⟨?_, ?_, ?_⟩ <;> rfl

/-- C7 as amended: within the frame sequence of `update`, the spawn step runs
strictly before the collision step, and an enemy created by the spawn step IS
already registered in the enemy collection that the same frame's
`check_collisions` processes (it becomes collision-eligible immediately, not
next frame); when the timer has not yet reached the spawn rate, the collision
step sees the unchanged collection. -/
theorem spawn_then_collide_order (e : GameEngine) (delta_time : ℚ) (x : ℤ)
    (speed : ℚ) (size : ℤ) (freshId : ℕ) :
    (e.enemy_spawn_timer + delta_time ≥ e.current_spawn_rate →
      e.spawn_then_collide delta_time x speed size freshId =
        GameEngine.check_collisions
          { e with
            enemies := e.enemies ++ [EnemyS.init freshId x (-ENEMY_SIZE_MAX) speed size]
            enemy_spawn_timer := 0 }) ∧
    (¬ (e.enemy_spawn_timer + delta_time ≥ e.current_spawn_rate) →
      e.spawn_then_collide delta_time x speed size freshId =
        GameEngine.check_collisions
          { e with enemy_spawn_timer := e.enemy_spawn_timer + delta_time }) :=
  ⟨spawn_then_collide_eq_of_ge e delta_time x speed size freshId,
   spawn_then_collide_eq_of_lt e delta_time x speed size freshId⟩

/-- Witness for C7's amended statement at the counterexample's engine state:
the spawn condition holds, so the frame's collision step runs on the
collection already containing the new enemy. -/
theorem spawn_then_collide_order_holds :
    ({ player := PlayerS.init 400 510
       player_projectiles := [⟨5, ⟨398, -56, 4, 12⟩, 0, -8⟩]
       enemies := []
       score_service := ⟨0, 0⟩
       enemy_spawn_timer := 3/2
       current_spawn_rate := 3/2
       next_difficulty_score := 100
       current_enemy_speed_min := 1
       current_enemy_speed_max := 3
       player_invulnerable_timer := 0 : GameEngine}.spawn_then_collide 0 400 1 40 9) =
      GameEngine.check_collisions
        { player := PlayerS.init 400 510
          player_projectiles := [⟨5, ⟨398, -56, 4, 12⟩, 0, -8⟩]
          enemies := [] ++ [EnemyS.init 9 400 (-ENEMY_SIZE_MAX) 1 40]
          score_service := ⟨0, 0⟩
          enemy_spawn_timer := 0
          current_spawn_rate := 3/2
          next_difficulty_score := 100
          current_enemy_speed_min := 1
          current_enemy_speed_max := 3
          player_invulnerable_timer := 0 } :=
  (spawn_then_collide_order _ 0 400 1 40 9).1 (by norm_num)

/-! ### C8: linearity of straight-line integration -/

/-- Truncating an integer-valued rational is exact. -/
theorem pytrunc_intCast (n : ℤ) : pytrunc (n : ℚ) = n := by
  unfold pytrunc
  split <;> simp

/-- When the frame's displacement along each axis is an integer number of
pixels, `Projectile.update` adds it exactly. -/
theorem Proj.update_whole (p : Proj) (delta_time : ℚ) (kx ky : ℤ)
    (hx : p.velocity_x * delta_time * 60 = (kx : ℚ))
    (hy : p.velocity_y * delta_time * 60 = (ky : ℚ)) :
    p.update delta_time =
      { p with rect := { p.rect with x := p.rect.x + kx, y := p.rect.y + ky } } := by
  have cx : (p.rect.x : ℚ) + (kx : ℚ) = ((p.rect.x + kx : ℤ) : ℚ) := by push_cast; ring
  have cy : (p.rect.y : ℚ) + (ky : ℚ) = ((p.rect.y + ky : ℤ) : ℚ) := by push_cast; ring
  unfold Proj.update
  rw [hx, hy, cx, cy, pytrunc_intCast, pytrunc_intCast]

/-- If each per-frame displacement is an integer, so is the displacement of
the summed delta. -/
theorem sum_displacement_int (v : ℚ) (dts : List ℚ)
    (h : ∀ t ∈ dts, ∃ m : ℤ, v * t * 60 = (m : ℚ)) :
    ∃ M : ℤ, v * dts.sum * 60 = (M : ℚ) := by
  induction dts with
  | nil => exact ⟨0, by simp⟩
  | cons t ts ih =>
    obtain ⟨m, hm⟩ := h t (List.mem_cons_self t ts)
    obtain ⟨M, hM⟩ := ih (fun u hu => h u (List.mem_cons_of_mem _ hu))
    refine ⟨m + M, ?_⟩
    have hsplit : v * (t + ts.sum) * 60 = v * t * 60 + v * ts.sum * 60 := by ring
    rw [List.sum_cons, hsplit, hm, hM]
    push_cast
    ring

/-- C8 counterexample: a projectile with velocity `(0, 1)` starting at `y = 0`.
Two frames of `delta_time = 1/100` (per-frame float displacement 0.6, truncated
to 0 by the integer rect) leave `y = 0`, while a single integration over the
summed delta `2/100` (displacement 1.2) gives `y = 1` — N-frame integration
differs from one integration over the summed delta time. -/
theorem projectile_integration_not_linear :
    ((((⟨0, ⟨0, 0, 4, 12⟩, 0, 1⟩ : Proj).update (1/100)).update (1/100)).rect.y = 0) ∧
    ((⟨0, ⟨0, 0, 4, 12⟩, 0, 1⟩ : Proj).update (1/100 + 1/100)).rect.y = 1 := by
  constructor <;> norm_num [Proj.update, pytrunc, Int.floor_eq_iff]

/-- C8 as amended: straight-line integration is linear exactly when every
per-frame displacement `velocity * delta_time * 60` lands on whole pixels
(then truncation is exact and the per-frame moves sum); in general the rect's
integer coordinates truncate every frame, so N-frame integration can differ
from a single integration over the summed delta time. -/
theorem projectile_integration_linear_on_whole_pixels (p : Proj) (dts : List ℚ)
    (h : ∀ dt ∈ dts, (∃ kx : ℤ, p.velocity_x * dt * 60 = (kx : ℚ)) ∧
                     (∃ ky : ℤ, p.velocity_y * dt * 60 = (ky : ℚ))) :
    (dts.foldl Proj.update p).rect.x = (p.update dts.sum).rect.x ∧
    (dts.foldl Proj.update p).rect.y = (p.update dts.sum).rect.y := by
  induction dts generalizing p with
  | nil =>
    have h0 : p.update 0 =
        { p with rect := { p.rect with x := p.rect.x + 0, y := p.rect.y + 0 } } :=
      Proj.update_whole p 0 0 0 (by push_cast; ring) (by push_cast; ring)
    rw [List.foldl_nil, List.sum_nil, h0]
    simp
  | cons dt dts ih =>
    obtain ⟨⟨kx, hkx⟩, ⟨ky, hky⟩⟩ := h dt (List.mem_cons_self _ _)
    have hrest : ∀ t ∈ dts, (∃ m : ℤ, p.velocity_x * t * 60 = (m : ℚ)) ∧
        (∃ m : ℤ, p.velocity_y * t * 60 = (m : ℚ)) :=
      fun t ht => h t (List.mem_cons_of_mem _ ht)
    have hvx : (p.update dt).velocity_x = p.velocity_x := rfl
    have hvy : (p.update dt).velocity_y = p.velocity_y := rfl
    obtain ⟨Mx, hMx⟩ := sum_displacement_int p.velocity_x dts (fun t ht => (hrest t ht).1)
    obtain ⟨My, hMy⟩ := sum_displacement_int p.velocity_y dts (fun t ht => (hrest t ht).2)
    have ihs := ih (p.update dt)
      (fun t ht => ⟨by rw [hvx]; exact (hrest t ht).1, by rw [hvy]; exact (hrest t ht).2⟩)
    have h1 := Proj.update_whole p dt kx ky hkx hky
    have hbigx : p.velocity_x * (dt + dts.sum) * 60 = ((kx + Mx : ℤ) : ℚ) := by
      have hs : p.velocity_x * (dt + dts.sum) * 60 =
          p.velocity_x * dt * 60 + p.velocity_x * dts.sum * 60 := by ring
      rw [hs, hkx, hMx]; push_cast; ring
    have hbigy : p.velocity_y * (dt + dts.sum) * 60 = ((ky + My : ℤ) : ℚ) := by
      have hs : p.velocity_y * (dt + dts.sum) * 60 =
          p.velocity_y * dt * 60 + p.velocity_y * dts.sum * 60 := by ring
      rw [hs, hky, hMy]; push_cast; ring
    have h2 := Proj.update_whole p (dt + dts.sum) (kx + Mx) (ky + My) hbigx hbigy
    have h4 := Proj.update_whole (p.update dt) dts.sum Mx My
      (by rw [hvx]; exact hMx) (by rw [hvy]; exact hMy)
    rw [List.foldl_cons, List.sum_cons, h2]
    constructor
    · rw [ihs.1, h4, h1]; dsimp; omega
    · rw [ihs.2, h4, h1]; dsimp; omega

/-- Witness for C8's amended statement: the stock projectile velocity
`(0, -8)` over two frames of exactly `1/60` seconds moves `-8` pixels per
frame, matching one integration over `2/60`. -/
theorem projectile_integration_linear_holds :
    ([1/60, 1/60].foldl Proj.update (⟨0, ⟨398, 478, 4, 12⟩, 0, -8⟩ : Proj)).rect.y =
      ((⟨0, ⟨398, 478, 4, 12⟩, 0, -8⟩ : Proj).update ([1/60, 1/60] : List ℚ).sum).rect.y :=
  (projectile_integration_linear_on_whole_pixels ⟨0, ⟨398, 478, 4, 12⟩, 0, -8⟩
    [1/60, 1/60]
    (by
      intro dt hdt
      have hd : dt = 1/60 := by
        rcases List.mem_cons.mp hdt with h | h
        · exact h
        · rcases List.mem_cons.mp h with h2 | h2
          · exact h2
          · exact absurd h2 (List.not_mem_nil dt)
      subst hd
      exact ⟨⟨0, by norm_num⟩, ⟨-8, by norm_num⟩⟩)).2

/-! ### C1: totality of GameEngine.update -/

/-- C1: `GameEngine.update` never completes normally.  `all_sprites` always
contains the player (added in `__init__`/`reset` and never killed), and step
"UPDATE ALL SPRITES" calls `self.all_sprites.update(self.delta_time)`, which
dispatches `sprite.update(delta_time)` — a single positional argument — to
every member.  `Player.update(self, input_state, delta_time)` requires two,
so the dispatch raises `TypeError` on every call, for every engine state,
input, delta time and oracle choice: `update` is not total over its domain,
it raises before the spawn/collision/cleanup/difficulty steps can run. -/
theorem update_always_raises (e : GameEngine) (input : InputState)
    (delta_time : ℚ) (x : ℤ) (speed : ℚ) (size : ℤ) (rot : EnemyS → ℤ)
    (freshId : ℕ) :
    e.update input delta_time x speed size rot freshId =
      Except.error PyError.typeError := rfl
